import Mathlib

/-
Verification of the asynchronous transaction orchestrator of the
edc-mvd-deploy-kit repository, as a shallow embedding of the Python
sources under scripts/provider (e2e_test.py, http_utils.py,
request_credentials.py).

Modelling conventions:
  - JSON values are the inductive Jv; a raw HTTP body is a Body, which
    is either a string that json.loads parses to a Jv, or text that
    json.loads rejects.
  - The outcome of one HTTP call made by urllib is an HttpAttempt:
    either urlopen returned a response (ok), or it raised HTTPError,
    URLError, or some other exception, matching the except clauses of
    the source.
  - Polling loops are modelled by structural recursion on the remaining
    attempt budget; each poller returns the number of fetches it issued
    together with an exit value.  The exit constructors correspond
    one-to-one to the distinct return sites of the source loop (each of
    which logs a distinct message); the value the Python function
    actually returns is recovered from the exit by a separate function.
  - time.sleep only suspends the thread and is not modelled.
-/

/-- Jv models a parsed JSON value (the result of json.loads). -/
inductive Jv
  | null
  | bool (b : Bool)
  | num (n : Int)
  | str (s : String)
  | arr (elems : List Jv)
  | obj (fields : List (String × Jv))

/-- Lookup of a key in the field list of a JSON object, first match wins,
mirroring a Python dict lookup. -/
def lookupField : List (String × Jv) → String → Option Jv
  | [], _ => none
  | (k, v) :: rest, key => if k = key then some v else lookupField rest key

/-- Jv.get? models dict.get(key): some value when the receiver is an object
holding the key, none otherwise. -/
def Jv.get? : Jv → String → Option Jv
  | .obj fields, key => lookupField fields key
  | _, _ => none

/-- jvFalsy models Python truthiness: None, False, 0, empty string, empty
list and empty dict are falsy. -/
def jvFalsy : Jv → Bool
  | .null => true
  | .bool b => !b
  | .num n => n == 0
  | .str s => s == ""
  | .arr es => es.isEmpty
  | .obj fs => fs.isEmpty

/-- optFalsy models the truthiness test applied to the result of dict.get:
a missing key (None) is falsy, otherwise the value decides. -/
def optFalsy : Option Jv → Bool
  | none => true
  | some v => jvFalsy v

/-- jvEqStr models comparing a value obtained by dict.get with a Python
string literal: true exactly when the value is that string. -/
def jvEqStr (o : Option Jv) (s : String) : Bool :=
  match o with
  | some (.str t) => t == s
  | _ => false

/-- Body models the raw string body of an HTTP response: json holds a
string that json.loads parses to the given value, text holds a string
that json.loads rejects. -/
inductive Body
  | json (v : Jv)
  | text (s : String)

/-- jsonLoads models json.loads on a Body: the parsed value, or none when
parsing raises JSONDecodeError. -/
def jsonLoads : Body → Option Jv
  | .json v => some v
  | .text _ => none

/-- HttpAttempt models the outcome of one urllib.request.urlopen call:
ok is a returned response (urllib only returns for 2xx statuses),
httpError is a raised urllib.error.HTTPError carrying the status code and
the error body, urlError is a raised urllib.error.URLError carrying
str(reason), otherError is any other exception. -/
inductive HttpAttempt
  | ok (status : Nat) (body : Body)
  | httpError (code : Nat) (body : Body)
  | urlError (reason : String)
  | otherError (message : String)

/-- make_http_request models http_utils.make_http_request (lines 87-141):
it returns (success, status_code, response_body); an HTTPError is reported
with its code and error body, a URLError or unexpected exception is
reported with status code 0 and the stringified reason as body. -/
def make_http_request : HttpAttempt → Bool × Nat × Body
  | .ok s b => (true, s, b)
  | .httpError c b => (false, c, b)
  | .urlError r => (false, 0, .text r)
  | .otherError m => (false, 0, .text m)

/-- make_request models http_utils.make_request (lines 18-84), the other
request helper: it returns (success, response_body, status_code), treats
only 200, 201 and 204 as success on a returned response, and treats a 409
HTTPError as success (resource already exists). -/
def make_request : HttpAttempt → Bool × Option Body × Option Nat
  | .ok s b =>
    if s == 200 || s == 201 || s == 204 then (true, some b, some s)
    else (false, some b, some s)
  | .httpError c b =>
    if c == 409 then (true, some b, some c) else (false, some b, some c)
  | .urlError _ => (false, none, none)
  | .otherError _ => (false, none, none)

/-- UrllibWellFormed states the facts urllib guarantees about an attempt:
urlopen only returns responses with a 2xx status (any other status raises
HTTPError), and an HTTPError carries the status line code of a real HTTP
response, which is at least 100 and not 2xx. -/
def UrllibWellFormed : HttpAttempt → Prop
  | .ok s _ => 200 ≤ s ∧ s < 300
  | .httpError c _ => 100 ≤ c ∧ (c < 200 ∨ 300 ≤ c)
  | .urlError _ => True
  | .otherError _ => True

/-- transportFail holds when the fetch itself fails at the transport or
HTTP layer in the sense of the spec: a non-2xx status (which urllib
surfaces as HTTPError), a network error or unexpected exception, or a
returned response whose body json.loads rejects. -/
def transportFail : HttpAttempt → Prop
  | .ok _ b => jsonLoads b = none
  | _ => True

/-- POLL_MAX_ATTEMPTS is the polling budget constant of e2e_test.py. -/
def POLL_MAX_ATTEMPTS : Nat := 60

/-- CRED_POLL_MAX_ATTEMPTS is the polling budget constant of
request_credentials.py. -/
def CRED_POLL_MAX_ATTEMPTS : Nat := 30

/-- NegPollExit enumerates the distinct return sites of
poll_negotiation_status (e2e_test.py lines 559-598): the FINALIZED branch
returning negotiation.get("contractAgreementId"), the TERMINATED branch,
the JSONDecodeError branch, the failed-fetch branch, and falling out of
the loop. -/
inductive NegPollExit
  | finalized (agreementId : Option Jv)
  | terminated
  | parseError
  | fetchError (status : Nat)
  | timeout

/-- negStep models one iteration of the poll_negotiation_status loop body:
none means the iteration classified the state as still in progress and the
loop continues after sleeping; some e means the function returns at this
iteration through exit e. -/
def negStep (a : HttpAttempt) : Option NegPollExit :=
  let (success, status, body) := make_http_request a
  if success && status == 200 then
    match jsonLoads body with
    | none => some .parseError
    | some doc =>
      if jvEqStr (doc.get? "state") "FINALIZED" then
        some (.finalized (doc.get? "contractAgreementId"))
      else if jvEqStr (doc.get? "state") "TERMINATED" then
        some .terminated
      else none
  else some (.fetchError status)

/-- pollAux runs a bounded polling loop: it applies the step classifier to
successive attempt indices, stops at the first classified exit, and
returns the timeout value when the budget is exhausted, together with the
number of fetches issued. -/
def pollAux {ε : Type} (step : Nat → Option ε) (timeoutVal : ε) :
    Nat → Nat → Nat × ε
  | 0, fetched => (fetched, timeoutVal)
  | fuel + 1, fetched =>
    match step fetched with
    | some e => (fetched + 1, e)
    | none => pollAux step timeoutVal fuel (fetched + 1)

/-- poll_negotiation_status models e2e_test.poll_negotiation_status with
the response of each attempt supplied as a sequence and the loop bound
POLL_MAX_ATTEMPTS generalised to a parameter; it returns the number of
fetches issued and the exit taken. -/
def poll_negotiation_status (responses : Nat → HttpAttempt)
    (maxAttempts : Nat) : Nat × NegPollExit :=
  pollAux (fun i => negStep (responses i)) .timeout maxAttempts 0

/-- negExitValue maps an exit of poll_negotiation_status to the value the
Python function returns: the agreement id on the FINALIZED branch, None on
every other branch. -/
def negExitValue : NegPollExit → Option Jv
  | .finalized v => v
  | _ => none

/-- negPollValue is the value poll_negotiation_status returns to its
caller for a given response sequence and budget. -/
def negPollValue (responses : Nat → HttpAttempt) (maxAttempts : Nat) :
    Option Jv :=
  negExitValue (poll_negotiation_status responses maxAttempts).2

/-- negFailureExit marks the exits at which poll_negotiation_status
returns because the fetch itself failed: a failed or non-200 request, or
an unparseable body. -/
def negFailureExit : NegPollExit → Bool
  | .fetchError _ => true
  | .parseError => true
  | _ => false

/-- TransferPollExit enumerates the distinct return sites of
poll_transfer_status (e2e_test.py lines 692-748). -/
inductive TransferPollExit
  | started
  | terminated
  | parseError
  | fetchError (status : Nat)
  | timeout

/-- transferStep models one iteration of the poll_transfer_status loop
body, in the same way negStep models the negotiation loop body. -/
def transferStep (a : HttpAttempt) : Option TransferPollExit :=
  let (success, status, body) := make_http_request a
  if success && status == 200 then
    match jsonLoads body with
    | none => some .parseError
    | some doc =>
      if jvEqStr (doc.get? "state") "STARTED" then some .started
      else if jvEqStr (doc.get? "state") "TERMINATED" then some .terminated
      else none
  else some (.fetchError status)

/-- poll_transfer_status models e2e_test.poll_transfer_status with the
loop bound generalised to a parameter; it returns the number of fetches
issued and the exit taken.  The Python function returns True exactly on
the started exit. -/
def poll_transfer_status (responses : Nat → HttpAttempt)
    (maxAttempts : Nat) : Nat × TransferPollExit :=
  pollAux (fun i => transferStep (responses i)) .timeout maxAttempts 0

/-- transferExitOk maps an exit of poll_transfer_status to the boolean the
Python function returns. -/
def transferExitOk : TransferPollExit → Bool
  | .started => true
  | _ => false

/-- CredPollExit enumerates the distinct return sites of
poll_credential_status (request_credentials.py lines 62-115). -/
inductive CredPollExit
  | issued
  | requestFailed
  | pollHttpError (code : Nat)
  | networkError
  | unexpectedError
  | timeout

/-- credStep models one iteration of the poll_credential_status loop body.
The source calls urllib directly: an HTTPError, URLError or other
exception each returns False immediately; json.loads failure raises and is
caught by the generic except clause; a returned response is used without
checking its status code. -/
def credStep (a : HttpAttempt) : Option CredPollExit :=
  match a with
  | .ok _ body =>
    match jsonLoads body with
    | none => some .unexpectedError
    | some doc =>
      if jvEqStr (doc.get? "status") "ISSUED" then some .issued
      else if jvEqStr (doc.get? "status") "FAILED"
          || jvEqStr (doc.get? "status") "REJECTED" then
        some .requestFailed
      else none
  | .httpError c _ => some (.pollHttpError c)
  | .urlError _ => some .networkError
  | .otherError _ => some .unexpectedError

/-- poll_credential_status models
request_credentials.poll_credential_status with the loop bound generalised
to a parameter; it returns the number of fetches issued and the exit
taken.  The Python function returns True exactly on the issued exit. -/
def poll_credential_status (responses : Nat → HttpAttempt)
    (maxAttempts : Nat) : Nat × CredPollExit :=
  pollAux (fun i => credStep (responses i)) .timeout maxAttempts 0

/-- credExitOk maps an exit of poll_credential_status to the boolean the
Python function returns. -/
def credExitOk : CredPollExit → Bool
  | .issued => true
  | _ => false

/-- credFailureExit marks the exits at which poll_credential_status
returns because the fetch itself failed. -/
def credFailureExit : CredPollExit → Bool
  | .pollHttpError _ => true
  | .networkError => true
  | .unexpectedError => true
  | _ => false

/-- CatalogExit enumerates the distinct return sites of
extract_offer_from_catalog (e2e_test.py lines 391-443): the found asset
with its policy, the empty-catalog error, the invalid-dataset-format
error, the asset-without-policy error, and the not-found error whose
message lists the id of every dataset. -/
inductive CatalogExit
  | found (assetId : String) (policy : Jv)
  | emptyCatalog
  | invalidFormat
  | missingPolicy (assetId : String)
  | notFound (availableIds : List (Option Jv))

/-- idMatches models the loop test dataset.get("@id") == target_asset_id:
true exactly when the dataset id is the target string. -/
def idMatches (d : Jv) (target : String) : Bool :=
  match d.get? "@id" with
  | some (.str s) => s == target
  | _ => false

/-- findOffer models the scan loop of extract_offer_from_catalog: the
first dataset whose id equals the target decides the result; when it has
no truthy policy id the function fails, otherwise it returns the id and
the full policy object; when no dataset matches, the failure lists the id
of every dataset of the catalog. -/
def findOffer (allDatasets : List Jv) (target : String) :
    List Jv → CatalogExit
  | [] => .notFound (allDatasets.map (fun d => d.get? "@id"))
  | d :: rest =>
    if idMatches d target then
      let policy := (d.get? "odrl:hasPolicy").getD (.obj [])
      if optFalsy (policy.get? "@id") then .missingPolicy target
      else .found target policy
    else findOffer allDatasets target rest

/-- extract_offer_from_catalog models e2e_test.extract_offer_from_catalog:
it reads catalog.get("dcat:dataset", default empty list), fails on a falsy
dataset value, normalises a single dict to a one-element list, rejects
any other non-list value, and scans the list. -/
def extract_offer_from_catalog (catalog : Jv) (target : String) :
    CatalogExit :=
  let datasets := (catalog.get? "dcat:dataset").getD (.arr [])
  if jvFalsy datasets then .emptyCatalog
  else
    match datasets with
    | .obj fs => findOffer [.obj fs] target [.obj fs]
    | .arr ds => findOffer ds target ds
    | _ => .invalidFormat

/-- catalogExitValue maps an exit of extract_offer_from_catalog to the
value the Python function returns: the pair on success, None otherwise. -/
def catalogExitValue : CatalogExit → Option (String × Jv)
  | .found a p => some (a, p)
  | _ => none

/-- request_catalog models e2e_test.request_catalog: the parsed catalog
when the request succeeded with status 200 and the body parses, None
otherwise. -/
def request_catalog (resp : HttpAttempt) : Option Jv :=
  let (success, status, body) := make_http_request resp
  if success && status == 200 then jsonLoads body else none

/-- initiate_contract_negotiation models
e2e_test.initiate_contract_negotiation (lines 480-538) with the response
of the POST supplied as input: the negotiation id read from the "@id"
field when the request succeeded with status 200 and the body parses,
None otherwise.  In particular a 409 response arrives as an HTTPError,
make_http_request reports it with success false, and the function returns
None. -/
def initiate_contract_negotiation (resp : HttpAttempt) : Option Jv :=
  let (success, status, body) := make_http_request resp
  if success && status == 200 then
    match jsonLoads body with
    | none => none
    | some doc => doc.get? "@id"
  else none

/-- initiate_transfer_process models e2e_test.initiate_transfer_process
(lines 636-689), whose handling of the response is identical to the
negotiation initiate. -/
def initiate_transfer_process (resp : HttpAttempt) : Option Jv :=
  let (success, status, body) := make_http_request resp
  if success && status == 200 then
    match jsonLoads body with
    | none => none
    | some doc => doc.get? "@id"
  else none

/-- retrieve_edr models e2e_test.retrieve_edr: the first element of the
returned list when the request succeeded with status 200 and the body
parses to a non-empty list, None otherwise. -/
def retrieve_edr (resp : HttpAttempt) : Option Jv :=
  let (success, status, body) := make_http_request resp
  if success && status == 200 then
    match jsonLoads body with
    | some (.arr (e :: _)) => some e
    | _ => none
  else none

/-- edr_auth_key models the auth_key binding of
e2e_test.extract_edr_details (line 838): edr.get("edc:authKey") with
default "Authorization".  The source logs this value and then discards
it. -/
def edr_auth_key (edr : Jv) : Jv :=
  (edr.get? "edc:authKey").getD (.str "Authorization")

/-- extract_edr_details models e2e_test.extract_edr_details (lines
823-848): it fails when the endpoint or auth code field is missing or
falsy, and otherwise returns the pair (endpoint, auth_code).  The
auth_key read on line 838 is not part of the returned value. -/
def extract_edr_details (edr : Jv) : Option (Jv × Jv) :=
  let endpoint := edr.get? "edc:endpoint"
  let authCode := edr.get? "edc:authCode"
  if optFalsy endpoint || optFalsy authCode then none
  else some (endpoint.getD .null, authCode.getD .null)

/-- HttpRequestModel describes the one HTTP request a piece of code
issues: target url, method, and header list. -/
structure HttpRequestModel where
  url : Jv
  method : String
  headers : List (String × Jv)

/-- access_data_request models the request built by
e2e_test.access_data_via_edr (lines 864-869): a GET to the endpoint whose
only header is named Authorization, the string literal of line 867, with
the auth code as value. -/
def access_data_request (endpoint authCode : Jv) : HttpRequestModel :=
  { url := endpoint, method := "GET", headers := [("Authorization", authCode)] }

/-- phase4Request composes extract_edr_details with access_data_request:
the request phase_4_data_access issues for a given EDR, when the EDR is
usable. -/
def phase4Request (edr : Jv) : Option HttpRequestModel :=
  (extract_edr_details edr).map (fun p => access_data_request p.1 p.2)

/-- access_data_via_edr models the response handling of
e2e_test.access_data_via_edr: the raw body on a successful 200 response
(whether or not it parses as JSON), None on any other outcome. -/
def access_data_via_edr (resp : HttpAttempt) : Option Body :=
  let (success, status, body) := make_http_request resp
  if success && status == 200 then some body else none

/-- SubmitResult models the outcome of the credential-request POST of
request_credentials.request_credentials_from_issuer: a returned response
carrying an optional Location header, or one of the three exception
paths. -/
inductive SubmitResult
  | ok (locationHeader : Option String)
  | httpError (code : Nat)
  | urlError (reason : String)
  | otherError

/-- request_credentials_from_issuer models
request_credentials.request_credentials_from_issuer (lines 118-222),
returning the boolean result together with the number of status fetches
poll_credential_status issued.  When the response has a Location header
the status is polled (the source first rewrites the URL, lines 188-199;
the rewriting only changes the address polled and is not modelled, the
poll responses being supplied by attempt index); when the header is
absent the source logs a warning and returns True without polling; every
exception path returns False without polling. -/
def request_credentials_from_issuer (submit : SubmitResult)
    (pollResponses : Nat → HttpAttempt) : Bool × Nat :=
  match submit with
  | .ok none => (true, 0)
  | .ok (some _) =>
    let (n, e) := poll_credential_status pollResponses CRED_POLL_MAX_ATTEMPTS
    (credExitOk e, n)
  | .httpError _ => (false, 0)
  | .urlError _ => (false, 0)
  | .otherError => (false, 0)

/-- Env packages the remote responses one run of the orchestrator
observes: the prerequisite gate result, the response of each one-shot
request, and the response sequence of each polling loop. -/
structure Env where
  prereqOk : Bool
  catalogResp : HttpAttempt
  negInitResp : HttpAttempt
  negPollResps : Nat → HttpAttempt
  transferInitResp : HttpAttempt
  transferPollResps : Nat → HttpAttempt
  edrResp : HttpAttempt
  dataResp : HttpAttempt

/-- Step labels the operations run_e2e_test invokes, in order; the two
poll labels record how many fetches the poll issued. -/
inductive Step
  | prereqCheck
  | catalogRequest
  | negInitiate
  | negPoll (fetches : Nat)
  | transferInitiate
  | transferPoll (fetches : Nat)
  | edrRetrieve
  | edrExtract
  | dataAccess
deriving DecidableEq

/-- stepPhase orders the orchestrated operations by the phase they belong
to: the prerequisite gate, then catalog discovery, then the two
negotiation operations, then the two transfer operations, then the three
data-access operations.  An operation of phase p+1 is invoked only after
every operation of phase at most p succeeded. -/
def stepPhase : Step → Nat
  | .prereqCheck => 0
  | .catalogRequest => 1
  | .negInitiate => 2
  | .negPoll _ => 3
  | .transferInitiate => 4
  | .transferPoll _ => 5
  | .edrRetrieve => 6
  | .edrExtract => 7
  | .dataAccess => 8

/-- phase1Offer models phase_1_catalog_discovery: the offer extracted from
the catalog when the catalog request and the extraction both succeed. -/
def phase1Offer (resp : HttpAttempt) (target : String) :
    Option (String × Jv) :=
  match request_catalog resp with
  | none => none
  | some catalog => catalogExitValue (extract_offer_from_catalog catalog target)

/-- run_e2e_test models e2e_test.run_e2e_test (lines 939-1017) together
with the phase functions it sequences, instrumented with the list of
operations invoked: each phase is attempted only when every earlier phase
succeeded, and the run stops at the first failing phase.  The falsy tests
mirror the `if not x` checks of the phase functions. -/
def run_e2e_test (env : Env) (target : String) (skipPrereq : Bool) :
    Bool × List Step :=
  let t0 : List Step := if skipPrereq then [] else [Step.prereqCheck]
  if !skipPrereq && !env.prereqOk then (false, t0)
  else
    match phase1Offer env.catalogResp target with
    | none => (false, t0 ++ [Step.catalogRequest])
    | some _offer =>
      if optFalsy (initiate_contract_negotiation env.negInitResp) then
        (false, t0 ++ [Step.catalogRequest, Step.negInitiate])
      else
        match poll_negotiation_status env.negPollResps POLL_MAX_ATTEMPTS with
        | (nf, ne) =>
          if optFalsy (negExitValue ne) then
            (false, t0 ++ [Step.catalogRequest, Step.negInitiate,
              Step.negPoll nf])
          else
            if optFalsy (initiate_transfer_process env.transferInitResp) then
              (false, t0 ++ [Step.catalogRequest, Step.negInitiate,
                Step.negPoll nf, Step.transferInitiate])
            else
              match poll_transfer_status env.transferPollResps
                  POLL_MAX_ATTEMPTS with
              | (tf, te) =>
                if transferExitOk te then
                  match retrieve_edr env.edrResp with
                  | none => (false, t0 ++ [Step.catalogRequest,
                      Step.negInitiate, Step.negPoll nf,
                      Step.transferInitiate, Step.transferPoll tf,
                      Step.edrRetrieve])
                  | some edr =>
                    match extract_edr_details edr with
                    | none => (false, t0 ++ [Step.catalogRequest,
                        Step.negInitiate, Step.negPoll nf,
                        Step.transferInitiate, Step.transferPoll tf,
                        Step.edrRetrieve, Step.edrExtract])
                    | some _ =>
                      match access_data_via_edr env.dataResp with
                      | none => (false, t0 ++ [Step.catalogRequest,
                          Step.negInitiate, Step.negPoll nf,
                          Step.transferInitiate, Step.transferPoll tf,
                          Step.edrRetrieve, Step.edrExtract,
                          Step.dataAccess])
                      | some _ =>
                        (true, t0 ++ [Step.catalogRequest,
                          Step.negInitiate, Step.negPoll nf,
                          Step.transferInitiate, Step.transferPoll tf,
                          Step.edrRetrieve, Step.edrExtract,
                          Step.dataAccess])
                else
                  (false, t0 ++ [Step.catalogRequest, Step.negInitiate,
                    Step.negPoll nf, Step.transferInitiate,
                    Step.transferPoll tf])

/-- pendingNegResp is a 200 response whose state keeps the negotiation
poll waiting. -/
def pendingNegResp : HttpAttempt :=
  .ok 200 (.json (.obj [("state", .str "REQUESTING")]))

/-- pendingCredResp is a 200 response whose status keeps the credential
poll waiting. -/
def pendingCredResp : HttpAttempt :=
  .ok 200 (.json (.obj [("status", .str "PENDING")]))

/-- terminatedNegResp is a 200 response reporting a terminated
negotiation. -/
def terminatedNegResp : HttpAttempt :=
  .ok 200 (.json (.obj [("state", .str "TERMINATED")]))

/-- malformedFinalizedResp is a 200 response reporting a finalized
negotiation that carries no contractAgreementId field. -/
def malformedFinalizedResp : HttpAttempt :=
  .ok 200 (.json (.obj [("state", .str "FINALIZED")]))

/-- malformedFinalizedSeq reports Requesting on the first fetch and then
Finalized without contractAgreementId. -/
def malformedFinalizedSeq : Nat → HttpAttempt := fun i =>
  if i == 0 then pendingNegResp else malformedFinalizedResp

/-- terminatedSeq reports Requesting on the first fetch and then
Terminated. -/
def terminatedSeq : Nat → HttpAttempt := fun i =>
  if i == 0 then pendingNegResp else terminatedNegResp

/-- sampleDs1 is a catalog dataset with id asset-1 and policy policy-1. -/
def sampleDs1 : Jv :=
  .obj [("@id", .str "asset-1"),
        ("odrl:hasPolicy", .obj [("@id", .str "policy-1")])]

/-- sampleDs2 is a catalog dataset with id asset-2 and policy policy-2. -/
def sampleDs2 : Jv :=
  .obj [("@id", .str "asset-2"),
        ("odrl:hasPolicy", .obj [("@id", .str "policy-2")])]

/-- sampleCatalog carries the datasets asset-1 and asset-2. -/
def sampleCatalog : Jv :=
  .obj [("dcat:dataset", .arr [sampleDs1, sampleDs2])]

/-- policylessCatalog carries one dataset with id asset-1 and no policy
object. -/
def policylessCatalog : Jv :=
  .obj [("dcat:dataset", .arr [.obj [("@id", .str "asset-1")]])]

/-- edrSampleOk is a usable EDR whose authKey names a header other than
Authorization. -/
def edrSampleOk : Jv :=
  .obj [("edc:endpoint", .str "http://dp/public"),
        ("edc:authCode", .str "tok"),
        ("edc:authKey", .str "X-Api-Key")]

/-- idBody is a response body carrying the id neg-1. -/
def idBody : Body := .json (.obj [("@id", .str "neg-1")])

/-- envTransferTerminated is an environment in which every phase up to the
transfer poll succeeds and the transfer poll observes Requesting and then
Terminated. -/
def envTransferTerminated : Env :=
  { prereqOk := true
    catalogResp := .ok 200 (.json sampleCatalog)
    negInitResp := .ok 200 (.json (.obj [("@id", .str "neg-1")]))
    negPollResps := fun _ => .ok 200 (.json (.obj
      [("state", .str "FINALIZED"), ("contractAgreementId", .str "agr-1")]))
    transferInitResp := .ok 200 (.json (.obj [("@id", .str "t-1")]))
    transferPollResps := fun i =>
      if i == 0 then .ok 200 (.json (.obj [("state", .str "REQUESTING")]))
      else .ok 200 (.json (.obj [("state", .str "TERMINATED")]))
    edrResp := .ok 200 (.json (.arr [edrSampleOk]))
    dataResp := .ok 200 (.json (.arr [])) }

/-- envCatalogFail is an environment whose catalog request fails at the
network layer, so catalog discovery fails. -/
def envCatalogFail : Env :=
  { envTransferTerminated with catalogResp := .urlError "refused" }

-- ===================================================================
-- Helper lemmas
-- ===================================================================

/-- A polling loop all of whose classified attempts are pending exhausts
its budget: it issues one fetch per unit of budget and yields the timeout
value. -/
theorem pollAux_pending {ε : Type} (step : Nat → Option ε) (tv : ε) :
    ∀ (fuel start : Nat), (∀ i, i < fuel → step (start + i) = none) →
      pollAux step tv fuel start = (start + fuel, tv) := by
  intro fuel
  induction fuel with
  | zero => intro start _; simp [pollAux]
  | succ n ih =>
    intro start h
    have h0 : step start = none := by simpa using h 0 (Nat.succ_pos n)
    have hrec := ih (start + 1) (fun i hi => by
      have := h (i + 1) (Nat.succ_lt_succ hi)
      simpa [Nat.add_assoc, Nat.add_comm 1 i] using this)
    simp only [pollAux, h0, hrec]
    rw [Nat.add_assoc, Nat.add_comm 1 n]

/-- A polling loop whose first classified exit occurs at attempt index k
returns that exit having issued exactly k+1 fetches. -/
theorem pollAux_exit {ε : Type} (step : Nat → Option ε) (tv : ε) :
    ∀ (fuel start k : Nat) (e : ε), k < fuel →
      (∀ i, i < k → step (start + i) = none) → step (start + k) = some e →
      pollAux step tv fuel start = (start + k + 1, e) := by
  intro fuel
  induction fuel with
  | zero => intro start k e hk; exact absurd hk (Nat.not_lt_zero k)
  | succ n ih =>
    intro start k e hk hpend hexit
    cases k with
    | zero =>
      have h0 : step start = some e := by simpa using hexit
      simp [pollAux, h0]
    | succ m =>
      have h0 : step start = none := by simpa using hpend 0 (Nat.succ_pos m)
      have hrec := ih (start + 1) m e (by omega)
        (fun i hi => by
          have := hpend (i + 1) (Nat.succ_lt_succ hi)
          simpa [Nat.add_assoc, Nat.add_comm 1 i] using this)
        (by
          have : start + (m + 1) = start + 1 + m := by omega
          rwa [this] at hexit)
      simp only [pollAux, h0, hrec]
      rw [show start + 1 + m = start + (m + 1) from by omega]

/-- A transport-level fetch failure makes the negotiation poll step exit
through a failure exit. -/
theorem negStep_of_transportFail (a : HttpAttempt) (h : transportFail a) :
    ∃ e, negStep a = some e ∧ negFailureExit e = true := by
  cases a with
  | ok s b =>
    have hb : jsonLoads b = none := h
    by_cases hs : (s == 200) = true
    · exact ⟨.parseError, by simp [negStep, make_http_request, hs, hb], rfl⟩
    · refine ⟨.fetchError s, ?_, rfl⟩
      simp only [negStep, make_http_request]
      simp [Bool.eq_false_iff.mpr hs]
  | httpError c b =>
    exact ⟨.fetchError c, by simp [negStep, make_http_request], rfl⟩
  | urlError r =>
    exact ⟨.fetchError 0, by simp [negStep, make_http_request], rfl⟩
  | otherError m =>
    exact ⟨.fetchError 0, by simp [negStep, make_http_request], rfl⟩

/-- A transport-level fetch failure makes the credential poll step exit
through a failure exit. -/
theorem credStep_of_transportFail (a : HttpAttempt) (h : transportFail a) :
    ∃ e, credStep a = some e ∧ credFailureExit e = true := by
  cases a with
  | ok s b =>
    have hb : jsonLoads b = none := h
    exact ⟨.unexpectedError, by simp [credStep, hb], rfl⟩
  | httpError c b => exact ⟨.pollHttpError c, by simp [credStep], rfl⟩
  | urlError r => exact ⟨.networkError, by simp [credStep], rfl⟩
  | otherError m => exact ⟨.unexpectedError, by simp [credStep], rfl⟩

/-- Datasets that do not match the target are skipped by the scan loop. -/
theorem findOffer_append (all : List Jv) (target : String) :
    ∀ (pre l : List Jv), (∀ p ∈ pre, idMatches p target = false) →
      findOffer all target (pre ++ l) = findOffer all target l := by
  intro pre
  induction pre with
  | nil => intro l _; rfl
  | cons d rest ih =>
    intro l h
    have hd : idMatches d target = false := h d (List.mem_cons_self d rest)
    have hrest := ih l (fun p hp => h p (List.mem_cons_of_mem d hp))
    simp [findOffer, hd, hrest]

/-- When no dataset matches the target, the scan loop reaches the
not-found exit listing the id of every dataset. -/
theorem findOffer_notFound (all : List Jv) (target : String) :
    ∀ (l : List Jv), (∀ p ∈ l, idMatches p target = false) →
      findOffer all target l
        = .notFound (all.map (fun d => d.get? "@id")) := by
  intro l h
  have := findOffer_append all target l [] h
  simpa using this

/-- When the transfer poll does not reach Started, the orchestrator
reports failure and never invokes EDR retrieval, EDR extraction or data
access. -/
theorem run_stops_without_transfer (env : Env) (target : String)
    (skip : Bool)
    (h : transferExitOk
      (poll_transfer_status env.transferPollResps POLL_MAX_ATTEMPTS).2
      = false) :
    (run_e2e_test env target skip).1 = false
    ∧ Step.edrRetrieve ∉ (run_e2e_test env target skip).2
    ∧ Step.edrExtract ∉ (run_e2e_test env target skip).2
    ∧ Step.dataAccess ∉ (run_e2e_test env target skip).2 := by
  rcases hp : poll_transfer_status env.transferPollResps POLL_MAX_ATTEMPTS
    with ⟨tf, te⟩
  rw [hp] at h
  simp only at h
  simp only [run_e2e_test, hp, h]
  repeat' split
  all_goals simp_all

-- ===================================================================
-- Claim theorems
-- ===================================================================

/-- C10: make_http_request returns success true exactly when the server
returned a response, which urllib only does for a 2xx status; an HTTP
error status is reported as (false, that status, error body); a
transport-level failure with no HTTP response is reported as (false, 0,
reason), so status code 0 marks transport errors at the interface. -/
theorem c10_make_http_request_interface (a : HttpAttempt)
    (h : UrllibWellFormed a) :
    ((make_http_request a).1 = true ↔
      ∃ s b, a = .ok s b ∧ 200 ≤ s ∧ s < 300)
    ∧ (∀ c b, a = .httpError c b → make_http_request a = (false, c, b))
    ∧ (∀ r, a = .urlError r → make_http_request a = (false, 0, .text r))
    ∧ (∀ m, a = .otherError m → make_http_request a = (false, 0, .text m))
    ∧ ((make_http_request a).2.1 = 0 ↔
      (∃ r, a = .urlError r) ∨ (∃ m, a = .otherError m)) := by
  cases a with
  | ok s b =>
    obtain ⟨h1, h2⟩ := h
    refine ⟨?_, ?_, ?_, ?_, ?_⟩ <;> simp [make_http_request]
    · exact ⟨h1, h2⟩
    · omega
  | httpError c b =>
    obtain ⟨h1, _⟩ := h
    refine ⟨?_, ?_, ?_, ?_, ?_⟩ <;> simp [make_http_request]
    omega
  | urlError r => refine ⟨?_, ?_, ?_, ?_, ?_⟩ <;> simp [make_http_request]
  | otherError m => refine ⟨?_, ?_, ?_, ?_, ?_⟩ <;> simp [make_http_request]

/-- C10 witness: a 404 HTTPError is well formed and is reported as
(false, 404, error body). -/
theorem c10_make_http_request_interface_witness :
    UrllibWellFormed (HttpAttempt.httpError 404 idBody)
    ∧ make_http_request (HttpAttempt.httpError 404 idBody)
      = (false, 404, idBody) :=
  ⟨⟨by omega, by omega⟩,
    (c10_make_http_request_interface (HttpAttempt.httpError 404 idBody)
      ⟨by omega, by omega⟩).2.1 404 idBody rfl⟩

/-- C1 counterexample: a 409 Conflict response to the negotiation or
transfer initiate is NOT treated as success: both initiate operations
return None (a phase failure), unlike a first successful call, which
returns the created id. -/
theorem c1_409_counterexample :
    initiate_contract_negotiation (HttpAttempt.httpError 409 idBody) = none
    ∧ initiate_transfer_process (HttpAttempt.httpError 409 idBody) = none
    ∧ initiate_contract_negotiation (HttpAttempt.ok 200 idBody)
      = some (Jv.str "neg-1") := ⟨rfl, rfl, rfl⟩

/-- C1 amended: 409 Conflict is treated as idempotent success only by the
make_request helper; the negotiation and transfer initiate operations use
make_http_request, which reports 409 as failure with status 409, so both
initiates return None on a 409 response. -/
theorem c1_amended_409_not_success (b : Body) :
    make_http_request (HttpAttempt.httpError 409 b) = (false, 409, b)
    ∧ initiate_contract_negotiation (HttpAttempt.httpError 409 b) = none
    ∧ initiate_transfer_process (HttpAttempt.httpError 409 b) = none
    ∧ make_request (HttpAttempt.httpError 409 b) = (true, some b, some 409) :=
  ⟨rfl, rfl, rfl, rfl⟩

/-- C2: when no fetch of the first maxAttempts attempts is classified as
terminal, the negotiation poll and the credential poll both return the
timeout exit having issued exactly maxAttempts fetches. -/
theorem c2_poll_timeout_exact_attempts
    (resN resC : Nat → HttpAttempt) (n : Nat) (hn : 1 ≤ n)
    (hN : ∀ i, i < n → negStep (resN i) = none)
    (hC : ∀ i, i < n → credStep (resC i) = none) :
    poll_negotiation_status resN n = (n, NegPollExit.timeout)
    ∧ poll_credential_status resC n = (n, CredPollExit.timeout) := by
  constructor
  · have := pollAux_pending (fun i => negStep (resN i)) NegPollExit.timeout
      n 0 (by intro i hi; simpa using hN i hi)
    simpa [poll_negotiation_status] using this
  · have := pollAux_pending (fun i => credStep (resC i)) CredPollExit.timeout
      n 0 (by intro i hi; simpa using hC i hi)
    simpa [poll_credential_status] using this

/-- C2 witness: three pending responses in a row and a budget of three
attempts time out after exactly three fetches on both pollers. -/
theorem c2_poll_timeout_exact_attempts_witness :
    poll_negotiation_status (fun _ => pendingNegResp) 3
      = (3, NegPollExit.timeout)
    ∧ poll_credential_status (fun _ => pendingCredResp) 3
      = (3, CredPollExit.timeout) :=
  c2_poll_timeout_exact_attempts (fun _ => pendingNegResp)
    (fun _ => pendingCredResp) 3 (by omega)
    (fun _ _ => rfl) (fun _ _ => rfl)

/-- C3 counterexample: on the sequence Requesting then Finalized without
contractAgreementId, the negotiation poll surfaces exactly the value None
to its caller, the same value it surfaces on the sequence Requesting then
Terminated: no distinct malformed-terminal-state error exists at the
interface of the operation. -/
theorem c3_malformed_finalized_counterexample :
    poll_negotiation_status malformedFinalizedSeq 60
      = (2, NegPollExit.finalized none)
    ∧ negPollValue malformedFinalizedSeq 60 = none
    ∧ negPollValue terminatedSeq 60 = none := ⟨rfl, rfl, rfl⟩

/-- C3 amended: when the poll observes a Finalized response whose
contractAgreementId field is absent it returns at that very attempt, not
treating the response as pending, but it surfaces the agreement id None,
which is the same value a terminated negotiation surfaces, rather than a
distinct malformed-terminal-state error. -/
theorem c3_amended_malformed_finalized (res : Nat → HttpAttempt)
    (n k : Nat) (doc : Jv) (hk : k < n)
    (hpend : ∀ i, i < k → negStep (res i) = none)
    (hresp : res k = .ok 200 (.json doc))
    (hstate : jvEqStr (doc.get? "state") "FINALIZED" = true)
    (hagr : doc.get? "contractAgreementId" = none) :
    poll_negotiation_status res n = (k + 1, NegPollExit.finalized none)
    ∧ negPollValue res n = negExitValue NegPollExit.terminated := by
  have hstep : negStep (res k) = some (.finalized none) := by
    rw [hresp]
    simp [negStep, make_http_request, jsonLoads, hstate, hagr]
  have := pollAux_exit (fun i => negStep (res i)) NegPollExit.timeout
    n 0 k (.finalized none) hk
    (by intro i hi; simpa using hpend i hi) (by simpa using hstep)
  constructor
  · simpa [poll_negotiation_status] using this
  · have hpoll : poll_negotiation_status res n
        = (k + 1, NegPollExit.finalized none) := by
      simpa [poll_negotiation_status] using this
    simp [negPollValue, hpoll, negExitValue]

/-- C3 amended witness: the concrete malformed sequence reaches the
Finalized branch at the second fetch and surfaces None. -/
theorem c3_amended_malformed_finalized_witness :
    poll_negotiation_status malformedFinalizedSeq 60
      = (1 + 1, NegPollExit.finalized none)
    ∧ negPollValue malformedFinalizedSeq 60
      = negExitValue NegPollExit.terminated :=
  c3_amended_malformed_finalized malformedFinalizedSeq 60 1
    (.obj [("state", .str "FINALIZED")]) (by omega)
    (fun i hi => by interval_cases i <;> rfl) rfl rfl rfl

/-- C4 counterexample: with maxAttempts 0 the polling loops do not fail
fast with a configuration error: they issue zero fetches and return the
ordinary timeout exit, exactly as a budget-exhausted poll does. -/
theorem c4_zero_attempts_counterexample :
    poll_negotiation_status (fun _ => HttpAttempt.urlError "unreachable") 0
      = (0, NegPollExit.timeout)
    ∧ poll_credential_status (fun _ => HttpAttempt.urlError "unreachable") 0
      = (0, CredPollExit.timeout) := ⟨rfl, rfl⟩

/-- C4 amended: maxAttempts 0 is not rejected: the poll issues no fetches
and returns the timeout exit; maxAttempts 1 always issues exactly one
immediate fetch. -/
theorem c4_amended_zero_attempts (res : Nat → HttpAttempt) :
    poll_negotiation_status res 0 = (0, NegPollExit.timeout)
    ∧ poll_credential_status res 0 = (0, CredPollExit.timeout)
    ∧ (poll_negotiation_status res 1).1 = 1
    ∧ (poll_credential_status res 1).1 = 1 := by
  refine ⟨rfl, rfl, ?_, ?_⟩
  · cases h : negStep (res 0) <;>
      simp [poll_negotiation_status, pollAux, h]
  · cases h : credStep (res 0) <;>
      simp [poll_credential_status, pollAux, h]

/-- C5: when the first k classified attempts are pending and the fetch of
attempt k+1 fails at the transport or HTTP layer (HTTP error status,
network error, unexpected exception, or unparseable body), both the
negotiation poll and the credential poll return a failure exit at that
very attempt, having issued exactly k+1 fetches: such errors are never
retried. -/
theorem c5_fetch_failure_immediate (resN resC : Nat → HttpAttempt)
    (n k : Nat) (hk : k < n)
    (hNp : ∀ i, i < k → negStep (resN i) = none)
    (hNf : transportFail (resN k))
    (hCp : ∀ i, i < k → credStep (resC i) = none)
    (hCf : transportFail (resC k)) :
    (∃ e, poll_negotiation_status resN n = (k + 1, e)
      ∧ negFailureExit e = true)
    ∧ (∃ e, poll_credential_status resC n = (k + 1, e)
      ∧ credFailureExit e = true) := by
  constructor
  · obtain ⟨e, he, hfail⟩ := negStep_of_transportFail (resN k) hNf
    refine ⟨e, ?_, hfail⟩
    have := pollAux_exit (fun i => negStep (resN i)) NegPollExit.timeout
      n 0 k e hk (by intro i hi; simpa using hNp i hi) (by simpa using he)
    simpa [poll_negotiation_status] using this
  · obtain ⟨e, he, hfail⟩ := credStep_of_transportFail (resC k) hCf
    refine ⟨e, ?_, hfail⟩
    have := pollAux_exit (fun i => credStep (resC i)) CredPollExit.timeout
      n 0 k e hk (by intro i hi; simpa using hCp i hi) (by simpa using he)
    simpa [poll_credential_status] using this

/-- C5 witness: one pending fetch followed by a network error stops both
polls at the second fetch with a failure exit. -/
theorem c5_fetch_failure_immediate_witness :
    (∃ e, poll_negotiation_status
        (fun i => if i == 0 then pendingNegResp
          else HttpAttempt.urlError "refused") 10
      = (1 + 1, e) ∧ negFailureExit e = true)
    ∧ (∃ e, poll_credential_status
        (fun i => if i == 0 then pendingCredResp
          else HttpAttempt.urlError "refused") 10
      = (1 + 1, e) ∧ credFailureExit e = true) :=
  c5_fetch_failure_immediate
    (fun i => if i == 0 then pendingNegResp
      else HttpAttempt.urlError "refused")
    (fun i => if i == 0 then pendingCredResp
      else HttpAttempt.urlError "refused")
    10 1 (by omega)
    (fun i hi => by interval_cases i <;> rfl) trivial
    (fun i hi => by interval_cases i <;> rfl) trivial

/-- Building a catalog whose dataset list is a non-empty JSON array makes
extract_offer_from_catalog scan that list. -/
theorem extract_offer_mk (ds : List Jv) (target : String) (h : ds ≠ []) :
    extract_offer_from_catalog (Jv.obj [("dcat:dataset", Jv.arr ds)]) target
      = findOffer ds target ds := by
  have hkey : (Jv.obj [("dcat:dataset", Jv.arr ds)]).get? "dcat:dataset"
      = some (Jv.arr ds) := by
    simp [Jv.get?, lookupField]
  have hempty : jvFalsy (Jv.arr ds) = false := by
    cases ds with
    | nil => exact absurd rfl h
    | cons a t => rfl
  simp [extract_offer_from_catalog, hkey, hempty]

/-- C6 counterexample: on a non-empty catalog whose only dataset matches
the target but carries no policy object, the extraction does NOT return
the pair: it fails through the missing-policy exit, so its caller
receives None. -/
theorem c6_missing_policy_counterexample :
    extract_offer_from_catalog policylessCatalog "asset-1"
      = CatalogExit.missingPolicy "asset-1"
    ∧ catalogExitValue (extract_offer_from_catalog policylessCatalog
        "asset-1") = none := ⟨rfl, rfl⟩

/-- C6 amended: on a non-empty catalog, when the first dataset whose id
equals the target carries a policy object with a truthy id, the
extraction returns that id with the full policy object; when no dataset
matches, it fails through the not-found exit listing the id of every
dataset; a match whose policy id is missing or falsy instead fails
through the missing-policy exit.  With datasets asset-1 and asset-2,
target asset-2 returns the policy of asset-2 and target asset-3 fails
listing both ids. -/
theorem c6_amended_offer_extraction :
    (∀ (pre rest : List Jv) (d : Jv) (target : String),
      (∀ p ∈ pre, idMatches p target = false) →
      idMatches d target = true →
      optFalsy (((d.get? "odrl:hasPolicy").getD (.obj [])).get? "@id")
        = false →
      extract_offer_from_catalog
        (.obj [("dcat:dataset", .arr (pre ++ d :: rest))]) target
        = .found target ((d.get? "odrl:hasPolicy").getD (.obj [])))
    ∧ (∀ (ds : List Jv) (target : String), ds ≠ [] →
      (∀ p ∈ ds, idMatches p target = false) →
      extract_offer_from_catalog (.obj [("dcat:dataset", .arr ds)]) target
        = .notFound (ds.map (fun d => d.get? "@id")))
    ∧ extract_offer_from_catalog sampleCatalog "asset-2"
        = .found "asset-2" (.obj [("@id", .str "policy-2")])
    ∧ extract_offer_from_catalog sampleCatalog "asset-3"
        = .notFound [some (.str "asset-1"), some (.str "asset-2")] := by
  refine ⟨?_, ?_, rfl, rfl⟩
  · intro pre rest d target hpre hd hpol
    rw [extract_offer_mk _ _ (by simp)]
    rw [findOffer_append _ _ pre (d :: rest) hpre]
    simp [findOffer, hd, hpol]
  · intro ds target hne hmatch
    rw [extract_offer_mk _ _ hne]
    exact findOffer_notFound ds target ds hmatch

/-- C6 witness: the two concrete scenarios of the claim, obtained from
the general statements. -/
theorem c6_amended_offer_extraction_witness :
    extract_offer_from_catalog sampleCatalog "asset-2"
      = CatalogExit.found "asset-2" (.obj [("@id", .str "policy-2")])
    ∧ extract_offer_from_catalog sampleCatalog "asset-3"
      = CatalogExit.notFound
        [some (.str "asset-1"), some (.str "asset-2")] := by
  constructor
  · have h := c6_amended_offer_extraction.1 [sampleDs1] [] sampleDs2
      "asset-2" (by intro p hp; fin_cases hp <;> rfl) rfl rfl
    exact h
  · exact c6_amended_offer_extraction.2.1 [sampleDs1, sampleDs2] "asset-3"
      (by simp) (by intro p hp; fin_cases hp <;> rfl)

/-- C7 counterexample: for an EDR whose authKey is X-Api-Key, the issued
GET carries the header named Authorization, not the EDR authKey. -/
theorem c7_auth_key_counterexample :
    edr_auth_key edrSampleOk = Jv.str "X-Api-Key"
    ∧ phase4Request edrSampleOk = some (access_data_request
        (Jv.str "http://dp/public") (Jv.str "tok"))
    ∧ (access_data_request (Jv.str "http://dp/public")
        (Jv.str "tok")).headers = [("Authorization", Jv.str "tok")]
    ∧ ("Authorization" : String) ≠ "X-Api-Key" :=
  ⟨rfl, rfl, rfl, by decide⟩

/-- C7 amended: for every usable EDR the data-access operation issues its
single GET to the EDR endpoint with exactly one header, whose name is the
fixed string Authorization and whose value is the EDR authCode; the EDR
authKey field is read with default Authorization but is not used to name
the header. -/
theorem c7_amended_auth_header (edr : Jv) (e c : Jv)
    (h : extract_edr_details edr = some (e, c)) :
    phase4Request edr = some ⟨e, "GET", [("Authorization", c)]⟩ := by
  simp [phase4Request, h, access_data_request]

/-- C7 amended witness: the concrete EDR with authKey X-Api-Key still
yields the Authorization header. -/
theorem c7_amended_auth_header_witness :
    phase4Request edrSampleOk
      = some ⟨Jv.str "http://dp/public", "GET",
          [("Authorization", Jv.str "tok")]⟩ :=
  c7_amended_auth_header edrSampleOk (Jv.str "http://dp/public")
    (Jv.str "tok") rfl

/-- C8: when the credential-request submission returns a response without
a Location header, the operation returns success and issues zero status
fetches: no polling is performed and no failure is reported. -/
theorem c8_missing_location_is_success (pollResponses : Nat → HttpAttempt) :
    request_credentials_from_issuer (SubmitResult.ok none) pollResponses
      = (true, 0) := rfl

set_option maxHeartbeats 4000000 in
/-- C9: whenever a phase produces a failure or timeout outcome the
orchestrator reports failure and invokes no operation of any later
phase.  One conjunct per phase gate: the prerequisite check, catalog
discovery, negotiation initiate, the negotiation poll surfacing no
agreement id (its failure or timeout exits), transfer initiate, the
transfer poll not reaching Started (its failure or timeout exits), EDR
retrieval, EDR extraction, and data access; each bounds the phase of
every invoked operation by the failing phase.  In particular, when the
transfer poll observes Requesting then Terminated it returns the
terminated failure after exactly two fetches and the orchestrator never
invokes EDR retrieval, EDR extraction or data access. -/
theorem c9_short_circuit_on_phase_failure (env : Env) (target : String)
    (skip : Bool) :
    (skip = false → env.prereqOk = false →
      run_e2e_test env target skip = (false, [Step.prereqCheck]))
    ∧ (phase1Offer env.catalogResp target = none →
      (run_e2e_test env target skip).1 = false
      ∧ ∀ s ∈ (run_e2e_test env target skip).2, stepPhase s ≤ 1)
    ∧ (optFalsy (initiate_contract_negotiation env.negInitResp) = true →
      (run_e2e_test env target skip).1 = false
      ∧ ∀ s ∈ (run_e2e_test env target skip).2, stepPhase s ≤ 2)
    ∧ (optFalsy (negExitValue
        (poll_negotiation_status env.negPollResps POLL_MAX_ATTEMPTS).2)
          = true →
      (run_e2e_test env target skip).1 = false
      ∧ ∀ s ∈ (run_e2e_test env target skip).2, stepPhase s ≤ 3)
    ∧ (optFalsy (initiate_transfer_process env.transferInitResp) = true →
      (run_e2e_test env target skip).1 = false
      ∧ ∀ s ∈ (run_e2e_test env target skip).2, stepPhase s ≤ 4)
    ∧ (transferExitOk (poll_transfer_status env.transferPollResps
        POLL_MAX_ATTEMPTS).2 = false →
      (run_e2e_test env target skip).1 = false
      ∧ ∀ s ∈ (run_e2e_test env target skip).2, stepPhase s ≤ 5)
    ∧ (retrieve_edr env.edrResp = none →
      (run_e2e_test env target skip).1 = false
      ∧ ∀ s ∈ (run_e2e_test env target skip).2, stepPhase s ≤ 6)
    ∧ ((∀ edr, retrieve_edr env.edrResp = some edr →
        extract_edr_details edr = none) →
      (run_e2e_test env target skip).1 = false
      ∧ ∀ s ∈ (run_e2e_test env target skip).2, stepPhase s ≤ 7)
    ∧ (access_data_via_edr env.dataResp = none →
      (run_e2e_test env target skip).1 = false)
    ∧ (env.transferPollResps 0
        = .ok 200 (.json (.obj [("state", .str "REQUESTING")])) →
      env.transferPollResps 1
        = .ok 200 (.json (.obj [("state", .str "TERMINATED")])) →
      poll_transfer_status env.transferPollResps POLL_MAX_ATTEMPTS
        = (2, TransferPollExit.terminated)
      ∧ (run_e2e_test env target skip).1 = false
      ∧ Step.edrRetrieve ∉ (run_e2e_test env target skip).2
      ∧ Step.edrExtract ∉ (run_e2e_test env target skip).2
      ∧ Step.dataAccess ∉ (run_e2e_test env target skip).2) := by
  rcases hN : poll_negotiation_status env.negPollResps POLL_MAX_ATTEMPTS
    with ⟨nf, ne⟩
  rcases hT : poll_transfer_status env.transferPollResps POLL_MAX_ATTEMPTS
    with ⟨tf, te⟩
  refine ⟨?_, ?_, ?_, ?_, ?_, ?_, ?_, ?_, ?_, ?_⟩
  · intro hs hp
    simp [run_e2e_test, hs, hp, hN, hT]
  · intro h
    simp only [run_e2e_test, hN, hT]
    repeat' split
    all_goals simp_all [stepPhase, List.forall_mem_cons,
      List.forall_mem_append]
  · intro h
    simp only [run_e2e_test, hN, hT]
    repeat' split
    all_goals simp_all [stepPhase, List.forall_mem_cons,
      List.forall_mem_append]
  · intro h
    simp only [run_e2e_test, hN, hT]
    repeat' split
    all_goals simp_all [stepPhase, List.forall_mem_cons,
      List.forall_mem_append]
  · intro h
    simp only [run_e2e_test, hN, hT]
    repeat' split
    all_goals simp_all [stepPhase, List.forall_mem_cons,
      List.forall_mem_append]
  · intro h
    simp only [run_e2e_test, hN, hT]
    repeat' split
    all_goals simp_all [stepPhase, List.forall_mem_cons,
      List.forall_mem_append]
  · intro h
    simp only [run_e2e_test, hN, hT]
    repeat' split
    all_goals simp_all [stepPhase, List.forall_mem_cons,
      List.forall_mem_append]
  · intro h
    simp only [run_e2e_test, hN, hT]
    repeat' split
    all_goals simp_all [stepPhase, List.forall_mem_cons,
      List.forall_mem_append]
  · intro h
    simp only [run_e2e_test, hN, hT]
    repeat' split
    all_goals simp_all
  · intro h0 h1
    have hpoll : poll_transfer_status env.transferPollResps
        POLL_MAX_ATTEMPTS = (2, TransferPollExit.terminated) := by
      have := pollAux_exit (fun i => transferStep (env.transferPollResps i))
        TransferPollExit.timeout POLL_MAX_ATTEMPTS 0 1 .terminated
        (by norm_num [POLL_MAX_ATTEMPTS])
        (by
          intro i hi
          interval_cases i
          show transferStep (env.transferPollResps 0) = none
          rw [h0]; rfl)
        (by
          show transferStep (env.transferPollResps 1)
            = some TransferPollExit.terminated
          rw [h1]; rfl)
      simpa [poll_transfer_status] using this
    have hrest := run_stops_without_transfer env target skip
      (by rw [hpoll]; rfl)
    exact ⟨hT.symm.trans hpoll, hrest.1, hrest.2.1, hrest.2.2.1,
      hrest.2.2.2⟩

/-- C9 witness: in the concrete environment whose earlier phases all
succeed and whose transfer poll observes Requesting then Terminated, the
run fails and the phase-4 operations never appear in the trace; and in
the environment whose catalog request fails, the run fails invoking no
operation beyond catalog discovery. -/
theorem c9_short_circuit_on_phase_failure_witness :
    (poll_transfer_status envTransferTerminated.transferPollResps
      POLL_MAX_ATTEMPTS = (2, TransferPollExit.terminated)
    ∧ (run_e2e_test envTransferTerminated "asset-1" false).1 = false
    ∧ Step.edrRetrieve
      ∉ (run_e2e_test envTransferTerminated "asset-1" false).2
    ∧ Step.edrExtract
      ∉ (run_e2e_test envTransferTerminated "asset-1" false).2
    ∧ Step.dataAccess
      ∉ (run_e2e_test envTransferTerminated "asset-1" false).2)
    ∧ ((run_e2e_test envCatalogFail "asset-1" false).1 = false
    ∧ ∀ s ∈ (run_e2e_test envCatalogFail "asset-1" false).2,
        stepPhase s ≤ 1) :=
  ⟨(c9_short_circuit_on_phase_failure envTransferTerminated "asset-1"
      false).2.2.2.2.2.2.2.2.2 rfl rfl,
    (c9_short_circuit_on_phase_failure envCatalogFail "asset-1"
      false).2.1 rfl⟩
